import Mathlib

/-!
Verification development for a 2D top-down action game (player.py, enemy.py,
game.py).  Python floats are modelled as exact rationals (ℚ) and Python ints
as ℤ; where a claim genuinely hinges on binary64 rounding (the sub-pixel
accumulator claim) a bit-exact scaled-integer model of IEEE round-to-nearest-
even is used instead, and the two are compared.
-/

/-- Axis-aligned integer rectangle mirroring pygame.Rect: (x, y) is the
top-left corner, w and h the extent; pygame stores all four as integers. -/
structure PRect where
  x : ℤ
  y : ℤ
  w : ℤ
  h : ℤ
deriving Repr, DecidableEq

/-- Overlap test of pygame.Rect.colliderect (rect.c, do_rects_intersect):
true when the rectangles strictly overlap on both axes; rectangles that only
touch along an edge do not collide. -/
def PRect.colliderect (a b : PRect) : Bool :=
  decide (a.x < b.x + b.w) && decide (b.x < a.x + a.w) &&
  decide (a.y < b.y + b.h) && decide (b.y < a.y + a.h)

/-- Horizontal center of a pygame rect, x + w // 2 with floor division. -/
def PRect.centerx (r : PRect) : ℤ := r.x + Int.fdiv r.w 2

/-- Vertical center of a pygame rect, y + h // 2 with floor division. -/
def PRect.centery (r : PRect) : ℤ := r.y + Int.fdiv r.h 2

/-- Truncation toward zero, the semantics of Python int() on a float:
the ceiling for negative values, the floor otherwise. -/
def ratTrunc (q : ℚ) : ℤ := if q < 0 then ⌈q⌉ else ⌊q⌋

/-- Facing directions of the player (the strings down/left/right/up). -/
inductive Dir
  | up
  | down
  | left
  | right
deriving Repr, DecidableEq

/-- Currently held movement keys, polled once per tick
(game.py:427-438; arrow keys or ZQSD). -/
structure Keys where
  left : Bool
  right : Bool
  up : Bool
  down : Bool
deriving Repr, DecidableEq

/-- State of Player (player.py) restricted to the fields the claims speak
about: position rect, speed, facing direction, animation frame index, the
hearts/health bookkeeping, the invincibility window, and the lazily created
sub-pixel accumulators that Game.handle_player_movement stores on the player
(animation surfaces and timers carry no claim-relevant information). -/
structure PlayerS where
  rect : PRect
  speed : ℚ
  direction : Dir
  currentFrame : ℤ
  isMoving : Bool
  maxHearts : ℤ
  currentHearts : ℤ
  health : ℤ
  invincible : Bool
  invincibleTimer : ℚ
  invincibleDuration : ℚ
  dxAccumulator : ℚ
  dyAccumulator : ℚ
deriving Repr, DecidableEq

/-- Player.__init__ (player.py:11-16, 138-147, 224-228): a 32x32 sprite rect
placed at (x, y), speed 1.5, six hearts at 17 health each, not invincible
with a 1000 ms invincibility duration.  The accumulators are created lazily
by getattr(..., 0) in game.py and therefore start at 0. -/
def initPlayer (x y : ℤ) : PlayerS :=
  { rect := { x := x, y := y, w := 32, h := 32 }
    speed := 3/2
    direction := Dir.down
    currentFrame := 0
    isMoving := false
    maxHearts := 6
    currentHearts := 6
    health := 6 * 17
    invincible := false
    invincibleTimer := 0
    invincibleDuration := 1000
    dxAccumulator := 0
    dyAccumulator := 0 }

/-- Player.take_damage (player.py:417-433): returns the updated player and the
boolean result.  While invincible it is a complete no-op returning False.
Otherwise it starts the invincibility window, converts the damage to hearts
via max(1, amount // 17) (Python // is floor division, Int.fdiv), clamps the
hearts at 0 and recomputes health as hearts * 17. -/
def PlayerS.takeDamage (p : PlayerS) (amount : ℤ) : PlayerS × Bool :=
  if p.invincible then (p, false)
  else
    let heartDamage := max 1 (Int.fdiv amount 17)
    let hearts := max 0 (p.currentHearts - heartDamage)
    ({ p with invincible := true
              invincibleTimer := p.invincibleDuration
              currentHearts := hearts
              health := hearts * 17 }, true)

/-- Player.heal (player.py:435-439): adds max(1, amount // 17) hearts, clamped
at max_hearts, and recomputes health as hearts * 17. -/
def PlayerS.heal (p : PlayerS) (amount : ℤ) : PlayerS :=
  let heartHeal := max 1 (Int.fdiv amount 17)
  let hearts := min p.maxHearts (p.currentHearts + heartHeal)
  { p with currentHearts := hearts, health := hearts * 17 }

/-- Player._update_invincibility (player.py:259-264): while invincible the
timer is decremented by dt and the flag is cleared once the timer is ≤ 0;
the (possibly negative) timer value itself is not reset. -/
def PlayerS.updateInvincibility (p : PlayerS) (dt : ℚ) : PlayerS :=
  if p.invincible then
    let t := p.invincibleTimer - dt
    if t ≤ 0 then { p with invincibleTimer := t, invincible := false }
    else { p with invincibleTimer := t }
  else p

/-- Player.update (player.py:250-257): updates invincibility and, when the
player is moving, the animation frames; the animation step touches neither
position nor hearts nor any timer modelled here. -/
def PlayerS.update (p : PlayerS) (dt : ℚ) : PlayerS :=
  p.updateInvincibility dt

/-- Direction choice of Player.update_direction (player.py:291-298): vertical
movement takes priority, then horizontal, keeping the old direction when both
components are zero. -/
def dirFromInput (dx dy : ℚ) (old : Dir) : Dir :=
  if dy < 0 then Dir.up
  else if dy > 0 then Dir.down
  else if dx > 0 then Dir.right
  else if dx < 0 then Dir.left
  else old

/-- Player.update_direction (player.py:285-328): sets the direction with
vertical priority and resets the animation frame to 0 (the image/alpha
bookkeeping is rendering-only). -/
def PlayerS.updateDirection (p : PlayerS) (dx dy : ℚ) : PlayerS :=
  { p with direction := dirFromInput dx dy p.direction
           currentFrame := 0 }

/-- Player.move (player.py:330-371), called with integer displacements: tracks
is_moving, picks the direction with horizontal priority (later overridden by
update_direction at the end of the movement handler), and shifts the rect by
the displacement; when not moving it resets the animation frame. -/
def PlayerS.move (p : PlayerS) (dx dy : ℤ) : PlayerS :=
  if dx ≠ 0 ∨ dy ≠ 0 then
    let d :=
      if dx > 0 then Dir.right
      else if dx < 0 then Dir.left
      else if dy > 0 then Dir.down
      else Dir.up
    { p with isMoving := true
             direction := d
             rect := { p.rect with x := p.rect.x + dx, y := p.rect.y + dy } }
  else
    { p with isMoving := false, currentFrame := 0 }

/-- State of Enemy (enemy.py) restricted to the claim-relevant fields:
collision rect, float position, velocity request (dx, dy), the sub-pixel
accumulators stored by Game.handle_enemy_movement, combat stats, and the
cooldown/invincibility/knockback timers. -/
structure EnemyS where
  rect : PRect
  floatX : ℚ
  floatY : ℚ
  speed : ℚ
  dx : ℚ
  dy : ℚ
  dxAccumulator : ℚ
  dyAccumulator : ℚ
  health : ℤ
  maxHealth : ℤ
  attackPower : ℤ
  detectionRadius : ℤ
  attackRadius : ℤ
  knockbackTime : ℚ
  hitCooldown : ℚ
  invincible : Bool
  invincibleTimer : ℚ
  invincibleDuration : ℚ
deriving Repr, DecidableEq

/-- Enemy.__init__ (enemy.py:13-91) with the 64x64 placeholder sprite: the
collision rect is shrunk to max(20, 64-8) = 56 on each side and centered with
a (64-56)//2 = 4 px inset; float_x/float_y are first set from the rect but
then overwritten with the raw spawn coordinates (lines 74-75 of the source);
speed 0.8, health 30, attack power 5, radii 150/40, all timers zero and a
200 ms invincibility duration. -/
def initEnemy (x y : ℤ) : EnemyS :=
  { rect := { x := x + 4, y := y + 4, w := 56, h := 56 }
    floatX := x
    floatY := y
    speed := 8/10
    dx := 0
    dy := 0
    dxAccumulator := 0
    dyAccumulator := 0
    health := 30
    maxHealth := 30
    attackPower := 5
    detectionRadius := 150
    attackRadius := 40
    knockbackTime := 0
    hitCooldown := 0
    invincible := false
    invincibleTimer := 0
    invincibleDuration := 200 }

/-- Enemy.take_damage (enemy.py:303-317): a no-op returning 0 while
invincible; otherwise subtracts max(1, amount) from health with no lower
clamp, starts the invincibility window, and returns the damage dealt. -/
def EnemyS.takeDamage (e : EnemyS) (amount : ℤ) : EnemyS × ℤ :=
  if e.invincible then (e, 0)
  else
    let damage := max 1 amount
    ({ e with health := e.health - damage
              invincible := true
              invincibleTimer := e.invincibleDuration }, damage)

/-- Enemy._handle_timers (enemy.py:192-208): decrements the hit cooldown while
positive, decrements the invincibility timer and clears the flag at ≤ 0
(leaving the negative value in the timer), and returns True while the
knockback lockout is active (decrementing it as well). -/
def EnemyS.handleTimers (e : EnemyS) (dt : ℚ) : EnemyS × Bool :=
  let e1 := if e.hitCooldown > 0 then { e with hitCooldown := e.hitCooldown - dt } else e
  let e2 :=
    if e1.invincible then
      let t := e1.invincibleTimer - dt
      if t ≤ 0 then { e1 with invincibleTimer := t, invincible := false }
      else { e1 with invincibleTimer := t }
    else e1
  if e2.knockbackTime > 0 then
    ({ e2 with knockbackTime := e2.knockbackTime - dt }, true)
  else (e2, false)

/-- Enemy.attack (enemy.py:319-333): gated on hit_cooldown ≤ 0; applies
attack_power damage to the player, sets hit_cooldown to the literal 1.0 (the
source comment says one second, but every timer in this code base counts
milliseconds) and the 100 ms knockback lockout.  The 25 px float_x/float_y
knockback displacement away from the player divides by an irrational
Euclidean distance; no claim depends on it, so those two fields are left
unchanged here and this definition must not be used to reason about them. -/
def EnemyS.attack (e : EnemyS) (p : PlayerS) : EnemyS × PlayerS :=
  if e.hitCooldown ≤ 0 then
    let p2 := (p.takeDamage e.attackPower).1
    ({ e with hitCooldown := 1, knockbackTime := 100 }, p2)
  else (e, p)

/-- Enemy._handle_ai_behavior (enemy.py:210-228): attack when the
center-to-center distance is below attack_radius (gated on the cooldown),
chase when below detection_radius, otherwise stop.  The source compares
math.sqrt(dx²+dy²) against the radii, which for nonnegative radii is the
squared comparison used here.  The chase branch divides by the Euclidean
distance, irrational in general; it is rendered with the integer square root
Nat.sqrt, exact only when the distance is whole — no claim depends on the
chase velocity and this branch must not be used to reason about its value. -/
def EnemyS.handleAi (e : EnemyS) (p : PlayerS) : EnemyS × PlayerS :=
  let dx : ℤ := p.rect.centerx - e.rect.centerx
  let dy : ℤ := p.rect.centery - e.rect.centery
  let d2 : ℤ := dx ^ 2 + dy ^ 2
  if d2 < e.attackRadius ^ 2 then
    if e.hitCooldown ≤ 0 then e.attack p else (e, p)
  else if d2 < e.detectionRadius ^ 2 then
    let dist : ℚ := (Nat.sqrt d2.toNat : ℚ)
    if 0 < dist then
      ({ e with dx := dx / dist * e.speed, dy := dy / dist * e.speed }, p)
    else (e, p)
  else
    ({ e with dx := 0, dy := 0 }, p)

/-- Session statistics dictionary of Game.__init__ (game.py:186-195). -/
structure Stats where
  level : ℤ
  exp : ℤ
  expToLevel : ℤ
  health : ℤ
  maxHealth : ℤ
  attack : ℤ
  defense : ℤ
  enemiesDefeated : ℤ
deriving Repr, DecidableEq

/-- Initial statistics (game.py:186-195). -/
def initStats : Stats :=
  { level := 1
    exp := 0
    expToLevel := 100
    health := 100
    maxHealth := 100
    attack := 10
    defense := 5
    enemiesDefeated := 0 }

/-- Game.level_up (game.py:541-550): level + 1, exp reset to 0, the threshold
scaled by int(x * 1.5) — truncation toward zero of an exact binary64 product
for the magnitudes reachable here, hence (3x) tdiv 2 — and +20 max health
with full restore, +5 attack, +2 defense. -/
def levelUp (s : Stats) : Stats :=
  { s with level := s.level + 1
           exp := 0
           expToLevel := Int.tdiv (3 * s.expToLevel) 2
           maxHealth := s.maxHealth + 20
           health := s.maxHealth + 20
           attack := s.attack + 5
           defense := s.defense + 2 }

/-- Level-up gate of Game.player_attack (game.py:534-535): level_up runs
exactly when exp ≥ exp_to_level (a single if, not a while). -/
def checkLevelUp (s : Stats) : Stats :=
  if s.expToLevel ≤ s.exp then levelUp s else s

/-- Session phase, the game_state strings "playing", "game_over", "victory"
(game.py:83, 402-403, 538-539). -/
inductive Phase
  | playing
  | gameOver
  | victory
deriving Repr, DecidableEq

/-- Session state of Game (game.py) restricted to the claim-relevant fields:
phase, running flag, player, live enemy list, stats, the immutable blocked
rectangles, and the global attack cooldown bookkeeping. -/
structure GameS where
  phase : Phase
  running : Bool
  player : PlayerS
  enemies : List EnemyS
  stats : Stats
  blockedRects : List PRect
  lastAttackTime : ℚ
  attackCooldown : ℚ
deriving Repr, DecidableEq

/-- Keyboard displacement request of Game.handle_player_movement
(game.py:427-443): ± speed*dt/16 per held key on each axis, then both
components scaled by the source literal 0.7071 when the request is diagonal. -/
def movementRequest (keys : Keys) (speed dt : ℚ) : ℚ × ℚ :=
  let dx : ℚ := (if keys.left then -(speed * dt / 16) else 0) +
                (if keys.right then speed * dt / 16 else 0)
  let dy : ℚ := (if keys.up then -(speed * dt / 16) else 0) +
                (if keys.down then speed * dt / 16 else 0)
  if dx ≠ 0 ∧ dy ≠ 0 then (dx * (7071/10000), dy * (7071/10000)) else (dx, dy)

/-- Sub-pixel accumulator step of Game.handle_player_movement
(game.py:446-460) for one axis: the request truncates to int pixels; only
when it truncates to zero (but is nonzero) is it added to the accumulator,
whose integer part is extracted and subtracted back out once its absolute
value reaches 1.  Returns the new accumulator and the pixel displacement. -/
def accumStep (acc req : ℚ) : ℚ × ℤ :=
  if req ≠ 0 ∧ ratTrunc req = 0 then
    let acc2 := acc + req
    if 1 ≤ |acc2| then
      let d := ratTrunc acc2
      (acc2 - d, d)
    else (acc2, 0)
  else (acc, ratTrunc req)

/-- Game.handle_player_movement (game.py:425-504): build the request, run the
accumulators, resolve the X axis against the blocked rectangles (snapping to
the first colliding wall in list order — the source breaks out of the loop),
then the Y axis from the already-resolved position, and finally
update_direction runs even when the movement was blocked. -/
def handlePlayerMovement (walls : List PRect) (keys : Keys) (dt : ℚ)
    (p : PlayerS) : PlayerS :=
  let req := movementRequest keys p.speed dt
  let ax := accumStep p.dxAccumulator req.1
  let ay := accumStep p.dyAccumulator req.2
  let p := { p with dxAccumulator := ax.1, dyAccumulator := ay.1 }
  let p :=
    if ax.2 ≠ 0 then
      let test := { p.rect with x := p.rect.x + ax.2 }
      match walls.find? (fun w => test.colliderect w) with
      | some w =>
        if ax.2 > 0 then { p with rect := { p.rect with x := w.x - p.rect.w } }
        else { p with rect := { p.rect with x := w.x + w.w } }
      | none => p.move ax.2 0
    else p
  let p :=
    if ay.2 ≠ 0 then
      let test := { p.rect with y := p.rect.y + ay.2 }
      match walls.find? (fun w => test.colliderect w) with
      | some w =>
        if ay.2 > 0 then { p with rect := { p.rect with y := w.y - p.rect.h } }
        else { p with rect := { p.rect with y := w.y + w.h } }
      | none => p.move 0 ay.2
    else p
  if req.1 ≠ 0 ∨ req.2 ≠ 0 then p.updateDirection req.1 req.2 else p

/-- Accumulator bookkeeping of Game.handle_enemy_movement (game.py:785-801)
for one axis: the fractional part of the velocity is always accumulated, and
once the accumulator reaches 1 in absolute value its integer part is added to
the displacement and subtracted back out.  Returns the new accumulator and
the integer pixel displacement. -/
def enemyDispStep (acc vel : ℚ) : ℚ × ℤ :=
  let i0 := ratTrunc vel
  let acc2 := acc + (vel - i0)
  if 1 ≤ |acc2| then
    let a := ratTrunc acc2
    (acc2 - a, i0 + a)
  else (acc2, i0)

/-- Horizontal collision block of Game.handle_enemy_movement
(game.py:803-819): on a collision of the shifted rect with any wall, the
velocity is inverted and damped by 0.8 and the position does not move;
otherwise the rect advances and float_x is synchronized to it. -/
def enemyAxisX (walls : List PRect) (e : EnemyS) (d : ℤ) : EnemyS :=
  if d ≠ 0 then
    let test := { e.rect with x := e.rect.x + d }
    if walls.any (fun w => test.colliderect w) then
      { e with dx := -e.dx * (8/10) }
    else
      { e with rect := { e.rect with x := e.rect.x + d }
               floatX := ((e.rect.x + d : ℤ) : ℚ) }
  else e

/-- Vertical collision block of Game.handle_enemy_movement (game.py:821-837),
run after the horizontal one. -/
def enemyAxisY (walls : List PRect) (e : EnemyS) (d : ℤ) : EnemyS :=
  if d ≠ 0 then
    let test := { e.rect with y := e.rect.y + d }
    if walls.any (fun w => test.colliderect w) then
      { e with dy := -e.dy * (8/10) }
    else
      { e with rect := { e.rect with y := e.rect.y + d }
               floatY := ((e.rect.y + d : ℤ) : ℚ) }
  else e

/-- Game.handle_enemy_movement (game.py:783-837): both accumulators are
processed first, then the X axis is resolved, then the Y axis. -/
def handleEnemyMovement (walls : List PRect) (e : EnemyS) : EnemyS :=
  let sx := enemyDispStep e.dxAccumulator e.dx
  let sy := enemyDispStep e.dyAccumulator e.dy
  let e := { e with dxAccumulator := sx.1, dyAccumulator := sy.1 }
  enemyAxisY walls (enemyAxisX walls e sx.2) sy.2

/-- Enemy sweep of Game.player_attack (game.py:515-539): the source iterates
over a copy of the enemy group, damaging every enemy whose center is within
100 px of the player center (sqrt(dx²+dy²) < 100, i.e. dx²+dy² < 10000);
an enemy at health ≤ 0 is removed on the spot, awards 10 exp, bumps the
defeat counter, may trigger the level-up check (later enemies in the same
sweep see the increased attack stat), and when the live set empties the
phase flips to victory.  Arguments: player rect, enemies still to process,
surviving already-processed enemies, stats, phase. -/
def attackSweep (pRect : PRect) : List EnemyS → List EnemyS → Stats → Phase →
    List EnemyS × Stats × Phase
  | [], survivors, st, ph => (survivors, st, ph)
  | en :: rest, survivors, st, ph =>
    let dx := en.rect.centerx - pRect.centerx
    let dy := en.rect.centery - pRect.centery
    if dx ^ 2 + dy ^ 2 < 10000 then
      let hit := (en.takeDamage st.attack).1
      if hit.health ≤ 0 then
        let st2 := { st with exp := st.exp + 10
                             enemiesDefeated := st.enemiesDefeated + 1 }
        let st3 := checkLevelUp st2
        let ph2 := if survivors = [] ∧ rest = [] then Phase.victory else ph
        attackSweep pRect rest survivors st3 ph2
      else
        attackSweep pRect rest (survivors ++ [hit]) st ph
    else
      attackSweep pRect rest (survivors ++ [en]) st ph

/-- Game.player_attack (game.py:506-539): gated by the 500 ms global attack
cooldown against pygame.time.get_ticks(), passed here as now; note that this
function does not consult the phase at all. -/
def GameS.playerAttack (g : GameS) (now : ℚ) : GameS :=
  if now - g.lastAttackTime < g.attackCooldown then g
  else
    let g2 := { g with lastAttackTime := now }
    let r := attackSweep g2.player.rect g2.enemies [] g2.stats g2.phase
    { g2 with enemies := r.1, stats := r.2.1, phase := r.2.2 }

/-- Input events the session reacts to (game.py:383-394).  The R-restart key
re-runs the whole constructor Game.__init__, replacing the session with a
fresh one (fresh random spawns) rather than evolving this one, so it is not
an event of the per-session state machine modelled here. -/
inductive GEvent
  | quit
  | escape
  | space
deriving Repr, DecidableEq

/-- Game.handle_events (game.py:383-394) for one event: QUIT and ESCAPE clear
the running flag; SPACE triggers player_attack with no check of the phase. -/
def GameS.handleEvent (g : GameS) (ev : GEvent) (now : ℚ) : GameS :=
  match ev with
  | GEvent.quit => { g with running := false }
  | GEvent.escape => { g with running := false }
  | GEvent.space => g.playerAttack now

/-- Game.handle_events over the polled event list of one frame. -/
def GameS.handleEvents (g : GameS) (evs : List GEvent) (now : ℚ) : GameS :=
  evs.foldl (fun g2 ev => g2.handleEvent ev now) g

/-- Per-enemy processing inside Game.update (game.py:412-420): timers, AI,
then movement against the blocked rectangles. -/
def enemyTick (walls : List PRect) (dt : ℚ) (p : PlayerS) (e : EnemyS) :
    EnemyS × PlayerS :=
  let e1 := (e.handleTimers dt).1
  let r := e1.handleAi p
  (handleEnemyMovement walls r.1, r.2)

/-- The enemy loop of Game.update, threading the player through each enemy
(an enemy attack mutates the player). -/
def enemiesTick (walls : List PRect) (dt : ℚ) :
    List EnemyS → PlayerS → List EnemyS × PlayerS
  | [], p => ([], p)
  | e :: es, p =>
    let r := enemyTick walls dt p e
    let rest := enemiesTick walls dt es r.2
    (r.1 :: rest.1, rest.2)

/-- Game.update (game.py:396-423): the player always updates (invincibility
and animation); a dead player in the playing phase flips it to game_over and
returns early; only in the playing phase do player movement, the enemy loop
and the spatial-hash rebuild run (handle_collisions only rebuilds the spatial
hash dictionary, mutating no entity, so it is not modelled). -/
def GameS.update (g : GameS) (dt : ℚ) (keys : Keys) : GameS :=
  let g1 := { g with player := g.player.update dt }
  if g1.player.currentHearts ≤ 0 ∧ g1.phase = Phase.playing then
    { g1 with phase := Phase.gameOver }
  else if g1.phase = Phase.playing then
    let g2 := { g1 with
      player := handlePlayerMovement g1.blockedRects keys dt g1.player }
    let r := enemiesTick g2.blockedRects dt g2.enemies g2.player
    { g2 with enemies := r.1, player := r.2 }
  else g1

/-- Inputs of one iteration of the main loop Game.run (game.py:850-866):
polled events, the pygame clock time, the (100 ms-capped) delta time and the
held movement keys. -/
structure FrameIn where
  events : List GEvent
  now : ℚ
  dt : ℚ
  keys : Keys

/-- One iteration of Game.run (game.py:850-866): handle_events, then update. -/
def GameS.frame (g : GameS) (f : FrameIn) : GameS :=
  (g.handleEvents f.events f.now).update f.dt f.keys

/-- Iterated main-loop frames. -/
def GameS.runFrames (g : GameS) (fs : List FrameIn) : GameS :=
  fs.foldl GameS.frame g

/-- Fuel-driven floor of the base-2 logarithm (structural recursion so the
kernel can evaluate it; 64 units of fuel cover every value reached here). -/
def lgF : ℕ → ℕ → ℕ
  | 0, _ => 0
  | fuel+1, n => if 2 ≤ n then lgF fuel (n / 2) + 1 else 0

/-- Floor of the base-2 logarithm of a natural number. -/
def lg (n : ℕ) : ℕ := lgF 64 n

/-- Rounding of a natural number to the nearest multiple of 2 ^ s, ties to
even multiple; only meaningful for s ≥ 1 (exact values never reach it). -/
def roundEvenAt (n : ℕ) (s : ℕ) : ℕ :=
  let q := n / 2 ^ s
  let r := n % 2 ^ s
  let half := 2 ^ s / 2
  if r < half then q * 2 ^ s
  else if half < r then (q + 1) * 2 ^ s
  else if q % 2 = 0 then q * 2 ^ s else (q + 1) * 2 ^ s

/-- Binary64 round-to-nearest-even on values scaled by 2 ^ 56.  Every float
value reached by the 0.3 px/tick accumulator run lies in (1/32, 2), a range
in which the unit in the last place of a binary64 number is at least 2 ^ -56,
so each such float is exactly n / 2 ^ 56 for an integer n and this model
stores n.  A value of at most 53 significant bits is exact; otherwise it is
rounded to 53 bits, ties to even — the IEEE 754 rule Python floats follow. -/
def fl56pos (n : ℕ) : ℕ :=
  let k := lg n
  if k ≤ 52 then n else roundEvenAt n (k - 52)

/-- Sign-symmetric extension of fl56pos (IEEE rounding is symmetric). -/
def fl56 (z : ℤ) : ℤ :=
  if z < 0 then -(fl56pos (-z).toNat : ℤ) else (fl56pos z.toNat : ℤ)

/-- Scaled representation of the Python float literal 0.3: the binary64 value
nearest to 3/10 is 5404319552844595 / 2 ^ 54, i.e. c03 / 2 ^ 56. -/
def c03 : ℤ := 5404319552844595 * 4

/-- Certificate that c03 is the binary64 neighbour of 3/10: it lies on the
2 ^ -54 grid (divisible by 4 in scaled units) and c03 / 2 ^ 56 differs from
3/10 by (8/10) / 2 ^ 56, well below the half-ulp of 2 / 2 ^ 56 on (1/4, 1/2). -/
theorem c03_is_nearest_binary64 : 10 * c03 + 8 = 3 * 2 ^ 56 ∧ c03 % 4 = 0 := by
  decide

/-- Scale factor of the bit-exact float model. -/
def SCALE : ℤ := 2 ^ 56

/-- Bit-exact binary64 version of the sub-pixel accumulator step of
Game.handle_player_movement (game.py:449-454) for the constant request
dx = 0.3 (for which int(dx) = 0, so the accumulating branch is always taken):
acc += dx rounds the sum to binary64; when |acc| ≥ 1 the integer part
(truncation toward zero) is extracted and subtracted back out (a subtraction
that is itself exact in binary64 by the Sterbenz lemma but is rounded here
anyway, faithfully to the source).  Returns (new accumulator, pixels). -/
def accumStep56 (acc : ℤ) : ℤ × ℤ :=
  let acc2 := fl56 (acc + c03)
  if SCALE ≤ |acc2| then
    let d := Int.tdiv acc2 SCALE
    (fl56 (acc2 - d * SCALE), d)
  else (acc2, 0)

/-- Iterated binary64 accumulator: accumulator after n ticks and the total
integer displacement emitted, starting from the accumulator 0. -/
def accumRun56 : ℕ → ℤ × ℤ
  | 0 => (0, 0)
  | n+1 =>
    let r := accumRun56 n
    let s := accumStep56 r.1
    (s.1, r.2 + s.2)

/-- Exact-rational counterpart: the accumStep of the embedding applied to the
constant request 3/10, with the total displacement emitted. -/
def accumRunExact : ℕ → ℚ × ℤ
  | 0 => (0, 0)
  | n+1 =>
    let r := accumRunExact n
    let s := accumStep r.1 (3/10)
    (s.1, r.2 + s.2)

/-- Operations a player object undergoes during a session: Player.update with
some delta time, Player.take_damage, Player.heal. -/
inductive POp
  | update (dt : ℚ)
  | damage (a : ℤ)
  | heal (a : ℤ)

/-- Application of one player operation. -/
def PlayerS.applyOp (p : PlayerS) : POp → PlayerS
  | POp.update dt => p.update dt
  | POp.damage a => (p.takeDamage a).1
  | POp.heal a => p.heal a

/-- Nonnegativity of the inputs of a player operation (the claims quantify
over nonnegative delta times and damage amounts). -/
def POp.wf : POp → Prop
  | POp.update dt => 0 ≤ dt
  | POp.damage a => 0 ≤ a
  | POp.heal a => 0 ≤ a

/-- A player after a sequence of operations. -/
def runPlayer (p : PlayerS) (ops : List POp) : PlayerS :=
  ops.foldl PlayerS.applyOp p

/-- Operations an enemy object undergoes: the per-tick Enemy._handle_timers
and Enemy.take_damage. -/
inductive EOp
  | tick (dt : ℚ)
  | damage (a : ℤ)

/-- Application of one enemy operation. -/
def EnemyS.applyOp (e : EnemyS) : EOp → EnemyS
  | EOp.tick dt => (e.handleTimers dt).1
  | EOp.damage a => (e.takeDamage a).1

/-- Nonnegativity of the inputs of an enemy operation. -/
def EOp.wf : EOp → Prop
  | EOp.tick dt => 0 ≤ dt
  | EOp.damage a => 0 ≤ a

/-- An enemy after a sequence of operations. -/
def runEnemy (e : EnemyS) (ops : List EOp) : EnemyS :=
  ops.foldl EnemyS.applyOp e

/-- Inductive invariant of the player health bookkeeping: health is the heart
count times 17, hearts stay within [0, max_hearts], the invincibility flag
implies a positive timer, and the configured duration is positive. -/
def PlayerInv (p : PlayerS) : Prop :=
  p.health = p.currentHearts * 17 ∧ 0 ≤ p.currentHearts ∧
  p.currentHearts ≤ p.maxHearts ∧
  (p.invincible = true → 0 < p.invincibleTimer) ∧ 0 < p.invincibleDuration

theorem playerInv_init (x y : ℤ) : PlayerInv (initPlayer x y) := by
  refine ⟨rfl, by norm_num [initPlayer], by norm_num [initPlayer], ?_, by norm_num [initPlayer]⟩
  intro h
  simp [initPlayer] at h

theorem playerInv_takeDamage (p : PlayerS) (a : ℤ) (h : PlayerInv p) :
    PlayerInv (p.takeDamage a).1 := by
  rcases h with ⟨h1, h2, h3, h4, h5⟩
  by_cases hi : p.invincible = true
  · simpa [PlayerS.takeDamage, hi] using ⟨h1, h2, h3, h4, h5⟩
  · simp only [PlayerS.takeDamage, hi, if_false, Bool.false_eq_true]
    refine ⟨rfl, le_max_left _ _, ?_, fun _ => h5, h5⟩
    have hd : (0:ℤ) ≤ max 1 (Int.fdiv a 17) := le_trans zero_le_one (le_max_left _ _)
    exact max_le (le_trans h2 h3) (le_trans (sub_le_self _ hd) h3)

theorem playerInv_heal (p : PlayerS) (a : ℤ) (h : PlayerInv p) :
    PlayerInv (p.heal a) := by
  rcases h with ⟨h1, h2, h3, h4, h5⟩
  refine ⟨rfl, ?_, min_le_left _ _, h4, h5⟩
  have hh : (0:ℤ) ≤ p.currentHearts + max 1 (Int.fdiv a 17) :=
    add_nonneg h2 (le_trans zero_le_one (le_max_left _ _))
  exact le_min (le_trans h2 h3) hh

theorem playerInv_update (p : PlayerS) (dt : ℚ) (h : PlayerInv p) :
    PlayerInv (p.update dt) := by
  rcases h with ⟨h1, h2, h3, h4, h5⟩
  unfold PlayerS.update PlayerS.updateInvincibility
  by_cases hi : p.invincible = true
  · simp only [hi, if_true]
    by_cases ht : p.invincibleTimer - dt ≤ 0
    · simp only [ht, if_true]
      exact ⟨h1, h2, h3, by simp, h5⟩
    · simp only [ht, if_false]
      exact ⟨h1, h2, h3, fun _ => lt_of_not_le ht, h5⟩
  · simp only [hi, if_false, Bool.false_eq_true]
    exact ⟨h1, h2, h3, h4, h5⟩

theorem playerInv_applyOp (p : PlayerS) (op : POp) (h : PlayerInv p) :
    PlayerInv (p.applyOp op) := by
  cases op with
  | update dt => exact playerInv_update p dt h
  | damage a => exact playerInv_takeDamage p a h
  | heal a => exact playerInv_heal p a h

theorem playerInv_run (ops : List POp) (p : PlayerS) (h : PlayerInv p) :
    PlayerInv (runPlayer p ops) := by
  induction ops generalizing p with
  | nil => exact h
  | cons op rest ih =>
    simp only [runPlayer, List.foldl]
    exact ih _ (playerInv_applyOp p op h)

/-- Inductive invariant of the enemy timers: the invincibility flag implies a
positive timer, and the configured duration is positive. -/
def EnemyTimerInv (e : EnemyS) : Prop :=
  (e.invincible = true → 0 < e.invincibleTimer) ∧ 0 < e.invincibleDuration

theorem enemyTimerInv_init (x y : ℤ) : EnemyTimerInv (initEnemy x y) := by
  refine ⟨?_, by norm_num [initEnemy]⟩
  intro h
  simp [initEnemy] at h

theorem enemyTimerInv_takeDamage (e : EnemyS) (a : ℤ) (h : EnemyTimerInv e) :
    EnemyTimerInv (e.takeDamage a).1 := by
  rcases h with ⟨h1, h2⟩
  by_cases hi : e.invincible = true
  · simpa [EnemyS.takeDamage, hi] using ⟨h1, h2⟩
  · simp only [EnemyS.takeDamage, hi, if_false, Bool.false_eq_true]
    exact ⟨fun _ => h2, h2⟩

theorem enemyTimerInv_handleTimers (e : EnemyS) (dt : ℚ) (h : EnemyTimerInv e) :
    EnemyTimerInv (e.handleTimers dt).1 := by
  rcases h with ⟨h1, h2⟩
  by_cases hi : e.invincible = true
  · by_cases ht : e.invincibleTimer - dt ≤ 0
    · by_cases hc : e.hitCooldown > 0 <;> by_cases hk : e.knockbackTime > 0 <;>
        refine ⟨?_, ?_⟩ <;> simp [EnemyS.handleTimers, hi, ht, hc, hk, h2]
    · have hpos := lt_of_not_le ht
      by_cases hc : e.hitCooldown > 0 <;> by_cases hk : e.knockbackTime > 0 <;>
        refine ⟨?_, ?_⟩ <;> simp [EnemyS.handleTimers, hi, ht, hc, hk, h2, hpos]
  · by_cases hc : e.hitCooldown > 0 <;> by_cases hk : e.knockbackTime > 0 <;>
      refine ⟨?_, ?_⟩ <;> simp [EnemyS.handleTimers, hi, hc, hk, h1, h2]

theorem enemyTimerInv_applyOp (e : EnemyS) (op : EOp) (h : EnemyTimerInv e) :
    EnemyTimerInv (e.applyOp op) := by
  cases op with
  | tick dt => exact enemyTimerInv_handleTimers e dt h
  | damage a => exact enemyTimerInv_takeDamage e a h

theorem enemyTimerInv_run (ops : List EOp) (e : EnemyS) (h : EnemyTimerInv e) :
    EnemyTimerInv (runEnemy e ops) := by
  induction ops generalizing e with
  | nil => exact h
  | cons op rest ih =>
    simp only [runEnemy, List.foldl]
    exact ih _ (enemyTimerInv_applyOp e op h)

/-- C1: take_damage on an invincible entity is a no-op — the whole state
(hence health, hearts and the invincibility timer) is returned unchanged —
and the result is False for the player (player.py:419-420) and 0 for the
enemy (enemy.py:305-306). -/
theorem takeDamage_invincible_noop :
    (∀ (p : PlayerS) (a : ℤ), p.invincible = true → p.takeDamage a = (p, false)) ∧
    (∀ (e : EnemyS) (a : ℤ), e.invincible = true → e.takeDamage a = (e, 0)) := by
  constructor
  · intro p a h
    simp [PlayerS.takeDamage, h]
  · intro e a h
    simp [EnemyS.takeDamage, h]

/-- Witness for C1 at a concrete invincible player and enemy. -/
theorem takeDamage_invincible_noop_witness :
    ({ initPlayer 0 0 with invincible := true } : PlayerS).invincible = true ∧
    ({ initPlayer 0 0 with invincible := true } : PlayerS).takeDamage 40 =
      ({ initPlayer 0 0 with invincible := true }, false) ∧
    ({ initEnemy 0 0 with invincible := true } : EnemyS).invincible = true ∧
    ({ initEnemy 0 0 with invincible := true } : EnemyS).takeDamage 40 =
      ({ initEnemy 0 0 with invincible := true }, 0) :=
  ⟨rfl, takeDamage_invincible_noop.1 _ 40 rfl, rfl,
    takeDamage_invincible_noop.2 _ 40 rfl⟩

/-- C2 (amended): after any sequence of update/take_damage/heal operations
with nonnegative inputs, the player's health and hearts are nonnegative, and
for both entities the invincibility flag implies a positive timer (the flag
is cleared once the timer expires, though the stored timer value itself can
be driven negative, and enemy health is not clamped — see the
counterexample). -/
theorem entity_update_invariants (x y ex ey : ℤ) (pops : List POp)
    (eops : List EOp) (_hp : ∀ op ∈ pops, op.wf) (_he : ∀ op ∈ eops, op.wf) :
    0 ≤ (runPlayer (initPlayer x y) pops).health ∧
    0 ≤ (runPlayer (initPlayer x y) pops).currentHearts ∧
    ((runPlayer (initPlayer x y) pops).invincible = true →
      0 < (runPlayer (initPlayer x y) pops).invincibleTimer) ∧
    ((runEnemy (initEnemy ex ey) eops).invincible = true →
      0 < (runEnemy (initEnemy ex ey) eops).invincibleTimer) := by
  have hP := playerInv_run pops (initPlayer x y) (playerInv_init x y)
  have hE := enemyTimerInv_run eops (initEnemy ex ey) (enemyTimerInv_init ex ey)
  rcases hP with ⟨h1, h2, h3, h4, h5⟩
  refine ⟨?_, h2, h4, hE.1⟩
  rw [h1]
  exact mul_nonneg h2 (by norm_num)

/-- Witness for C2 (amended) on concrete nonnegative operation lists. -/
theorem entity_update_invariants_witness :
    (∀ op ∈ ([POp.damage 10, POp.update 50] : List POp), op.wf) ∧
    (∀ op ∈ ([EOp.damage 3, EOp.tick 10] : List EOp), op.wf) ∧
    (0 ≤ (runPlayer (initPlayer 0 0) [POp.damage 10, POp.update 50]).health ∧
     0 ≤ (runPlayer (initPlayer 0 0) [POp.damage 10, POp.update 50]).currentHearts ∧
     ((runPlayer (initPlayer 0 0) [POp.damage 10, POp.update 50]).invincible = true →
       0 < (runPlayer (initPlayer 0 0) [POp.damage 10, POp.update 50]).invincibleTimer) ∧
     ((runEnemy (initEnemy 0 0) [EOp.damage 3, EOp.tick 10]).invincible = true →
       0 < (runEnemy (initEnemy 0 0) [EOp.damage 3, EOp.tick 10]).invincibleTimer)) := by
  have hp : ∀ op ∈ ([POp.damage 10, POp.update 50] : List POp), op.wf := by
    intro op hop
    simp only [List.mem_cons, List.not_mem_nil, or_false] at hop
    rcases hop with rfl | rfl
    · norm_num [POp.wf]
    · norm_num [POp.wf]
  have he : ∀ op ∈ ([EOp.damage 3, EOp.tick 10] : List EOp), op.wf := by
    intro op hop
    simp only [List.mem_cons, List.not_mem_nil, or_false] at hop
    rcases hop with rfl | rfl
    · norm_num [EOp.wf]
    · norm_num [EOp.wf]
  exact ⟨hp, he, entity_update_invariants 0 0 0 0 _ _ hp he⟩

/-- C2 counterexample: with nonnegative inputs only (damage 31, then updates
of 16 ms and 96 ms, all below the 100 ms frame cap), the enemy health reaches
-1 after an update completes — Enemy.take_damage has no lower clamp — and the
player invincibility timer reaches -56 — _update_invincibility clears the
flag but stores the negative remainder. -/
theorem entity_update_invariants_cex :
    (runEnemy (initEnemy 0 0) [EOp.damage 31, EOp.tick 16]).health < 0 ∧
    (runPlayer (initPlayer 0 0)
      [POp.damage 10, POp.update 96, POp.update 96, POp.update 96, POp.update 96,
       POp.update 96, POp.update 96, POp.update 96, POp.update 96, POp.update 96,
       POp.update 96, POp.update 96]).invincibleTimer < 0 := by
  constructor
  · norm_num [runEnemy, EnemyS.applyOp, EnemyS.takeDamage, EnemyS.handleTimers, initEnemy]
  · norm_num [runPlayer, PlayerS.applyOp, PlayerS.takeDamage, PlayerS.update,
      PlayerS.updateInvincibility, initPlayer]

/-- C10: after any operation sequence (in particular after every take_damage
or heal call), the player's health equals current_hearts * 17 and the hearts
stay within [0, max_hearts]: take_damage clamps at 0, heal at max_hearts, and
both recompute health from the heart count. -/
theorem player_hearts_health_sync (x y : ℤ) (ops : List POp) :
    (runPlayer (initPlayer x y) ops).health =
      (runPlayer (initPlayer x y) ops).currentHearts * 17 ∧
    0 ≤ (runPlayer (initPlayer x y) ops).currentHearts ∧
    (runPlayer (initPlayer x y) ops).currentHearts ≤
      (runPlayer (initPlayer x y) ops).maxHearts := by
  have h := playerInv_run ops (initPlayer x y) (playerInv_init x y)
  exact ⟨h.1, h.2.1, h.2.2.1⟩

/-- C5: for a non-invincible player, take_damage removes exactly
max(1, amount // 17) hearts, clamped at zero; in particular from the initial
6 hearts, amount 10 leaves 5 hearts (one removed) and amount 40 leaves 4
hearts (two removed). -/
theorem player_damage_heart_formula (p : PlayerS) (a : ℤ)
    (h : p.invincible = false) :
    (p.takeDamage a).1.currentHearts =
      max 0 (p.currentHearts - max 1 (Int.fdiv a 17)) ∧
    ((initPlayer 0 0).takeDamage 10).1.currentHearts = 6 - 1 ∧
    ((initPlayer 0 0).takeDamage 40).1.currentHearts = 6 - 2 := by
  refine ⟨?_, by decide, by decide⟩
  simp [PlayerS.takeDamage, h]

/-- Witness for C5 at the fresh (non-invincible) player and amount 100. -/
theorem player_damage_heart_formula_witness :
    (initPlayer 0 0).invincible = false ∧
    ((initPlayer 0 0).takeDamage 100).1.currentHearts =
      max 0 ((initPlayer 0 0).currentHearts - max 1 (Int.fdiv 100 17)) :=
  ⟨rfl, (player_damage_heart_formula _ 100 rfl).1⟩

/-- C6: when the level-up check fires with exp = 100 and exp_to_level = 100,
the level rises by 1, exp resets to 0, the threshold becomes
int(100 * 1.5) = 150, max health rises by 20 with health set to the new
maximum, attack by 5 and defense by 2 (game.py:534-550). -/
theorem level_up_stats (s : Stats) (h1 : s.exp = 100) (h2 : s.expToLevel = 100) :
    (checkLevelUp s).level = s.level + 1 ∧
    (checkLevelUp s).exp = 0 ∧
    (checkLevelUp s).expToLevel = 150 ∧
    (checkLevelUp s).maxHealth = s.maxHealth + 20 ∧
    (checkLevelUp s).health = s.maxHealth + 20 ∧
    (checkLevelUp s).attack = s.attack + 5 ∧
    (checkLevelUp s).defense = s.defense + 2 := by
  have hc : s.expToLevel ≤ s.exp := by rw [h1, h2]
  unfold checkLevelUp
  rw [if_pos hc]
  unfold levelUp
  refine ⟨rfl, rfl, ?_, rfl, rfl, rfl, rfl⟩
  rw [h2]
  show Int.tdiv (3 * 100) 2 = 150
  decide

/-- Witness for C6 at the initial statistics with 100 exp gathered. -/
theorem level_up_stats_witness :
    ({ initStats with exp := 100 } : Stats).exp = 100 ∧
    ({ initStats with exp := 100 } : Stats).expToLevel = 100 ∧
    (checkLevelUp { initStats with exp := 100 }).level =
      ({ initStats with exp := 100 } : Stats).level + 1 ∧
    (checkLevelUp { initStats with exp := 100 }).expToLevel = 150 :=
  ⟨rfl, rfl, (level_up_stats _ rfl rfl).1, (level_up_stats _ rfl rfl).2.2.1⟩

/-- C3 (code bug): Enemy.attack (enemy.py:323) resets hit_cooldown to the
literal 1.0, not 1000, although its own comment says one second and every
timer in this code base — including hit_cooldown itself in
Enemy._handle_timers — is decremented by the delta time in milliseconds
(invincible_duration 200 ms, knockback 100 ms, the run loop passes
pygame.time.get_ticks() differences).  Consequently a single ordinary 16 ms
tick already drives the cooldown to -15 ≤ 0, re-enabling the attack, instead
of blocking it for 1000 ms. -/
theorem enemy_attack_cooldown_expires_after_one_tick :
    ((initEnemy 0 0).attack (initPlayer 0 0)).1.hitCooldown = 1 ∧
    ((initEnemy 0 0).attack (initPlayer 0 0)).1.hitCooldown ≠ 1000 ∧
    ((((initEnemy 0 0).attack (initPlayer 0 0)).1.handleTimers 16).1.hitCooldown ≤ 0) := by
  refine ⟨?_, ?_, ?_⟩ <;>
    norm_num [EnemyS.attack, EnemyS.handleTimers, initEnemy, initPlayer,
      PlayerS.takeDamage]

/-- C4 counterexample: under the binary64 float arithmetic the program
actually performs (Python floats), ten consecutive ticks of requesting
0.3 px through the sub-pixel accumulator emit exactly 2 px, not 3: the
accumulator after the tenth addition is the float 0.9999999999999998, just
short of 1, because each addition rounds to 53 bits. -/
theorem subpixel_ten_ticks_two_px : (accumRun56 10).2 = 2 := by decide

/-- C4 (amended): under binary64 arithmetic the ten-tick displacement is 2 px
with the third pixel emitted on the eleventh tick — so the accumulator does
preserve the average speed up to one ulp-starved tick, with no systematic
rounding loss — while under exact rational arithmetic (the idealization the
spec states) the very accumStep used by handlePlayerMovement emits exactly
3 px in ten ticks. -/
theorem subpixel_displacement_exact_vs_binary64 :
    (accumRun56 10).2 = 2 ∧ (accumRun56 11).2 = 3 ∧ (accumRunExact 10).2 = 3 := by
  refine ⟨by decide, by decide, ?_⟩
  norm_num [accumRunExact, accumStep, ratTrunc, abs]

set_option maxRecDepth 4000 in
/-- Witness evaluation of the binary64 model at small tick counts against the
hand-checkable float values: after three ticks the accumulator is the float
0.8999999999999999 (scaled: 64851834634135136 = 0.8999999999999999 * 2^56)
with nothing emitted, and the first pixel is emitted on the fourth tick. -/
theorem accumRun56_small_ticks :
    accumRun56 3 = (64851834634135136, 0) ∧ (accumRun56 4).2 = 1 := by
  constructor <;> decide

theorem attackSweep_phase_ne_playing (pr : PRect) (es sv : List EnemyS)
    (st : Stats) (ph : Phase) (h : ph ≠ Phase.playing) :
    (attackSweep pr es sv st ph).2.2 ≠ Phase.playing := by
  induction es generalizing sv st ph with
  | nil => exact h
  | cons en rest ih =>
    unfold attackSweep
    dsimp only
    split
    · split
      · apply ih
        split
        · simp
        · exact h
      · exact ih _ _ _ h
    · exact ih _ _ _ h

theorem playerAttack_player_eq (g : GameS) (now : ℚ) :
    (g.playerAttack now).player = g.player := by
  unfold GameS.playerAttack
  split <;> rfl

theorem playerAttack_phase_ne_playing (g : GameS) (now : ℚ)
    (h : g.phase ≠ Phase.playing) :
    (g.playerAttack now).phase ≠ Phase.playing := by
  unfold GameS.playerAttack
  split
  · exact h
  · exact attackSweep_phase_ne_playing _ _ _ _ _ h

theorem handleEvent_player_eq (g : GameS) (ev : GEvent) (now : ℚ) :
    (g.handleEvent ev now).player = g.player := by
  cases ev with
  | quit => rfl
  | escape => rfl
  | space => exact playerAttack_player_eq g now

theorem handleEvent_phase_ne_playing (g : GameS) (ev : GEvent) (now : ℚ)
    (h : g.phase ≠ Phase.playing) :
    (g.handleEvent ev now).phase ≠ Phase.playing := by
  cases ev with
  | quit => exact h
  | escape => exact h
  | space => exact playerAttack_phase_ne_playing g now h

theorem handleEvents_player_eq (g : GameS) (evs : List GEvent) (now : ℚ) :
    (g.handleEvents evs now).player = g.player := by
  induction evs generalizing g with
  | nil => rfl
  | cons ev rest ih =>
    simp only [GameS.handleEvents, List.foldl]
    rw [show (List.foldl (fun g2 ev2 => g2.handleEvent ev2 now) (g.handleEvent ev now) rest) =
      GameS.handleEvents (g.handleEvent ev now) rest now from rfl]
    rw [ih (g.handleEvent ev now)]
    exact handleEvent_player_eq g ev now

theorem handleEvents_phase_ne_playing (g : GameS) (evs : List GEvent) (now : ℚ)
    (h : g.phase ≠ Phase.playing) :
    (g.handleEvents evs now).phase ≠ Phase.playing := by
  induction evs generalizing g with
  | nil => exact h
  | cons ev rest ih =>
    simp only [GameS.handleEvents, List.foldl]
    exact ih (g.handleEvent ev now) (handleEvent_phase_ne_playing g ev now h)

theorem update_rect_eq (p : PlayerS) (dt : ℚ) : (p.update dt).rect = p.rect := by
  unfold PlayerS.update PlayerS.updateInvincibility
  split
  · dsimp only
    split <;> rfl
  · rfl

theorem update_hearts_eq (p : PlayerS) (dt : ℚ) :
    (p.update dt).currentHearts = p.currentHearts := by
  unfold PlayerS.update PlayerS.updateInvincibility
  split
  · dsimp only
    split <;> rfl
  · rfl

theorem game_update_not_playing (g : GameS) (dt : ℚ) (keys : Keys)
    (h : g.phase ≠ Phase.playing) :
    (g.update dt keys).player.rect = g.player.rect ∧
    (g.update dt keys).phase = g.phase := by
  unfold GameS.update
  rw [if_neg (by intro hc; exact h hc.2)]
  rw [if_neg (by intro hc; exact h hc)]
  exact ⟨update_rect_eq g.player dt, rfl⟩

theorem frame_not_playing (g : GameS) (f : FrameIn) (h : g.phase ≠ Phase.playing) :
    (g.frame f).player.rect = g.player.rect ∧ (g.frame f).phase ≠ Phase.playing := by
  unfold GameS.frame
  have hev := handleEvents_phase_ne_playing g f.events f.now h
  obtain ⟨h1, h2⟩ := game_update_not_playing (g.handleEvents f.events f.now) f.dt f.keys hev
  refine ⟨?_, ?_⟩
  · rw [h1, handleEvents_player_eq]
  · rw [h2]
    exact hev

theorem runFrames_not_playing (g : GameS) (fs : List FrameIn)
    (h : g.phase ≠ Phase.playing) :
    (g.runFrames fs).player.rect = g.player.rect ∧
    (g.runFrames fs).phase ≠ Phase.playing := by
  induction fs generalizing g with
  | nil => exact ⟨rfl, h⟩
  | cons f rest ih =>
    obtain ⟨h1, h2⟩ := frame_not_playing g f h
    obtain ⟨h3, h4⟩ := ih (g.frame f) h2
    refine ⟨?_, ?_⟩
    · show (GameS.runFrames (g.frame f) rest).player.rect = _
      rw [h3, h1]
    · show (GameS.runFrames (g.frame f) rest).phase ≠ _
      exact h4

/-- C7 (amended): once the player's hearts are at 0 in the playing phase the
next update flips the phase to game_over; from any non-playing phase (absent
the R restart, which rebuilds a whole new session) every further frame —
events plus update — leaves the player's position untouched and the phase
never returns to playing, so player movement processing never runs again.
Attack processing, however, is NOT suppressed: player_attack has no phase
gate (see the counterexample). -/
theorem game_over_suppresses_movement (g : GameS) (dt : ℚ) (keys : Keys)
    (fs : List FrameIn) (g2 : GameS)
    (hdead : g.player.currentHearts ≤ 0) (hplay : g.phase = Phase.playing)
    (hover : g2.phase ≠ Phase.playing) :
    (g.update dt keys).phase = Phase.gameOver ∧
    (g2.runFrames fs).player.rect = g2.player.rect ∧
    (g2.runFrames fs).phase ≠ Phase.playing := by
  refine ⟨?_, (runFrames_not_playing g2 fs hover).1, (runFrames_not_playing g2 fs hover).2⟩
  unfold GameS.update
  rw [if_pos ⟨by rw [update_hearts_eq]; exact hdead, hplay⟩]

/-- Concrete session in the game_over phase: dead player at (100, 100), one
live enemy spawned at (100, 100) (center distance sqrt 512 < 100 px), fresh
stats, no walls, and an attack cooldown that elapsed long ago. -/
def gameOverSession : GameS :=
  { phase := Phase.gameOver
    running := true
    player := { initPlayer 100 100 with currentHearts := 0, health := 0 }
    enemies := [initEnemy 100 100]
    stats := initStats
    blockedRects := []
    lastAttackTime := 0
    attackCooldown := 500 }

/-- C7 counterexample: from the game_over phase, a SPACE input event still
runs the full player_attack sweep — handle_events and player_attack never
consult the phase — so the in-range enemy's health drops from 30 to 20.
The claim that no player attack processing ever occurs after game over is
therefore false on this code. -/
theorem attack_still_processed_after_game_over :
    gameOverSession.phase = Phase.gameOver ∧
    (gameOverSession.enemies.map fun e => e.health) = [30] ∧
    ((gameOverSession.handleEvent GEvent.space 1000).enemies.map
      fun e => e.health) = [20] := by
  refine ⟨rfl, rfl, ?_⟩
  norm_num [GameS.handleEvent, GameS.playerAttack, gameOverSession, attackSweep,
    initEnemy, initPlayer, initStats, EnemyS.takeDamage, PRect.centerx,
    PRect.centery, Int.fdiv, checkLevelUp]

/-- Keys state with nothing held. -/
def noKeys : Keys := ⟨false, false, false, false⟩

/-- The same session but still in the playing phase with the dead player. -/
def deadPlayingSession : GameS := { gameOverSession with phase := Phase.playing }

/-- Witness for C7 (amended) at a concrete dead-player session and a concrete
game-over frame containing a SPACE event. -/
theorem game_over_suppresses_movement_witness :
    (deadPlayingSession.player.currentHearts ≤ 0 ∧
     deadPlayingSession.phase = Phase.playing ∧
     gameOverSession.phase ≠ Phase.playing) ∧
    (deadPlayingSession.update 16 noKeys).phase = Phase.gameOver ∧
    (gameOverSession.runFrames [⟨[GEvent.space], 1000, 16, noKeys⟩]).player.rect =
      gameOverSession.player.rect ∧
    (gameOverSession.runFrames [⟨[GEvent.space], 1000, 16, noKeys⟩]).phase ≠
      Phase.playing := by
  have hdead : deadPlayingSession.player.currentHearts ≤ 0 := by decide
  have hover : gameOverSession.phase ≠ Phase.playing := by decide
  obtain ⟨h1, h2, h3⟩ := game_over_suppresses_movement deadPlayingSession 16 noKeys
    [⟨[GEvent.space], 1000, 16, noKeys⟩] gameOverSession hdead rfl hover
  exact ⟨⟨hdead, rfl, hover⟩, h1, h2, h3⟩

/-- C8: in Game.handle_enemy_movement, whenever the requested integer
displacement on an axis would make the enemy rect overlap any blocked
rectangle, that axis is left untouched (rect coordinate and float coordinate
both unchanged) and the velocity component on that axis becomes -0.8 times
its pre-collision value; handleEnemyMovement is by definition the composition
of the two axis blocks proved here, applied to the displacements produced by
enemyDispStep. -/
theorem enemy_bounce_blocked_axis (walls : List PRect) (e : EnemyS) (d : ℤ) :
    (d ≠ 0 →
      (walls.any fun w => PRect.colliderect { e.rect with x := e.rect.x + d } w) = true →
      (enemyAxisX walls e d).rect.x = e.rect.x ∧
      (enemyAxisX walls e d).floatX = e.floatX ∧
      (enemyAxisX walls e d).dx = -e.dx * (8/10)) ∧
    (d ≠ 0 →
      (walls.any fun w => PRect.colliderect { e.rect with y := e.rect.y + d } w) = true →
      (enemyAxisY walls e d).rect.y = e.rect.y ∧
      (enemyAxisY walls e d).floatY = e.floatY ∧
      (enemyAxisY walls e d).dy = -e.dy * (8/10)) := by
  constructor <;> intro hd hc
  · refine ⟨?_, ?_, ?_⟩ <;> simp [enemyAxisX, hd, hc]
  · refine ⟨?_, ?_, ?_⟩ <;> simp [enemyAxisY, hd, hc]

/-- Witness for C8: an enemy resting against a wall with leftward velocity
dx = -3 px/tick; the shifted rect overlaps the wall, the position stays and
the velocity is inverted and damped. -/
theorem enemy_bounce_blocked_axis_witness :
    ((-3 : ℤ) ≠ 0 ∧
     ([{ x := 0, y := 0, w := 10, h := 10 }].any fun w =>
       PRect.colliderect
         { ({ initEnemy 0 0 with dx := -3 } : EnemyS).rect with
           x := ({ initEnemy 0 0 with dx := -3 } : EnemyS).rect.x + (-3) } w) = true) ∧
    (enemyAxisX [{ x := 0, y := 0, w := 10, h := 10 }]
        { initEnemy 0 0 with dx := -3 } (-3)).rect.x =
      ({ initEnemy 0 0 with dx := -3 } : EnemyS).rect.x ∧
    (enemyAxisX [{ x := 0, y := 0, w := 10, h := 10 }]
        { initEnemy 0 0 with dx := -3 } (-3)).dx =
      -({ initEnemy 0 0 with dx := -3 } : EnemyS).dx * (8/10) := by
  have hd : (-3 : ℤ) ≠ 0 := by decide
  have hc : ([({ x := 0, y := 0, w := 10, h := 10 } : PRect)].any fun w =>
      PRect.colliderect
        { ({ initEnemy 0 0 with dx := -3 } : EnemyS).rect with
          x := ({ initEnemy 0 0 with dx := -3 } : EnemyS).rect.x + (-3) } w) = true := by
    decide
  obtain ⟨h1, _h2, h3⟩ :=
    (enemy_bounce_blocked_axis [{ x := 0, y := 0, w := 10, h := 10 }]
      { initEnemy 0 0 with dx := -3 } (-3)).1 hd hc
  exact ⟨⟨hd, hc⟩, h1, h3⟩

/-- C9: at the end of Game.handle_player_movement the facing direction is
determined by update_direction, which gives vertical input priority: whenever
the requested vertical component is negative the player faces up, whenever it
is positive the player faces down — regardless of the horizontal component
(so in particular when both components are nonzero) and regardless of any
wall blocking. -/
theorem vertical_direction_priority (walls : List PRect) (keys : Keys) (dt : ℚ)
    (p : PlayerS) :
    ((movementRequest keys p.speed dt).2 < 0 →
      (handlePlayerMovement walls keys dt p).direction = Dir.up) ∧
    (0 < (movementRequest keys p.speed dt).2 →
      (handlePlayerMovement walls keys dt p).direction = Dir.down) := by
  constructor <;> intro h
  · have hne : (movementRequest keys p.speed dt).1 ≠ 0 ∨
        (movementRequest keys p.speed dt).2 ≠ 0 := Or.inr (ne_of_lt h)
    unfold handlePlayerMovement
    dsimp only
    rw [if_pos hne]
    simp [PlayerS.updateDirection, dirFromInput, h]
  · have hne : (movementRequest keys p.speed dt).1 ≠ 0 ∨
        (movementRequest keys p.speed dt).2 ≠ 0 := Or.inr (ne_of_gt h)
    unfold handlePlayerMovement
    dsimp only
    rw [if_pos hne]
    simp [PlayerS.updateDirection, dirFromInput, h, asymm h]

/-- Keys state holding up and left together. -/
def keysUpLeft : Keys := ⟨true, false, true, false⟩

/-- Witness for C9: holding up and left for a 16 ms tick gives the diagonal
request (-1.5 * 0.7071, -1.5 * 0.7071); the final direction is up. -/
theorem vertical_direction_priority_witness :
    (movementRequest keysUpLeft (initPlayer 0 0).speed 16).2 < 0 ∧
    (handlePlayerMovement [] keysUpLeft 16 (initPlayer 0 0)).direction = Dir.up := by
  have h : (movementRequest keysUpLeft (initPlayer 0 0).speed 16).2 < 0 := by
    norm_num [movementRequest, keysUpLeft, initPlayer]
  exact ⟨h, (vertical_direction_priority [] keysUpLeft 16 (initPlayer 0 0)).1 h⟩
